import Mathlib

/-!
Shallow embedding of the NVCaffe GPU memory manager
(`src/caffe/util/gpu_memory.cpp`) and proofs about its device-info
bookkeeping, workspace reserve protocol, pinned-buffer pools, locking
discipline, and lifecycle operations.

Machine words (`size_t`) are modelled as `Nat`; all arithmetic in the
modelled paths is guarded in the source so no wrap-around occurs there.
Driver calls (`cudaMemGetInfo`, `cudaGetDeviceProperties`,
`cudaHostAlloc`, ...) are oracles: their results are passed in as
explicit parameters.  Pointers are modelled as `Nat` identifiers
(`0` plays the role of a null pointer in vectors of `void*` that C++
value-initializes).
-/

namespace GPUMemory

/-- Constant from the source: `INITIAL_PINNED_BYTES = 64` (line 19). -/
def INITIAL_PINNED_BYTES : Nat := 64

/-- Constant from the source: `INVALID_DEVICE` is cub's invalid device
ordinal, `-1` (line 13). -/
def INVALID_DEVICE : Int := -1

/-- Per-device info record: `GPUMemory::DevInfo` with fields `free_`,
`total_`, `flush_count_`.  C++ value-initialization gives all zeroes. -/
structure DevInfo where
  free_ : Nat
  total_ : Nat
  flush_count_ : Nat
  deriving DecidableEq

instance : Inhabited DevInfo := ⟨⟨0, 0, 0⟩⟩

/-- Lock acquisition mode on the process-wide `shared_mutex`
(`GPUMemory::read_write_mutex()`): no acquisition, `shared_lock`
(reader), or exclusive (writer). -/
inductive LockMode where
  | unlocked
  | shared
  | exclusive
  deriving DecidableEq

/-- The mutable state of the `GPUMemory::Manager` singleton:
`debug_`, `initialized_`, the cub allocator handle (modelled as a
presence flag), `dev_info_`, `update_thresholds_`, and the three
process-wide pinned-buffer tables (pointers as `Nat`, `0` = null). -/
structure ManagerState where
  debug_ : Bool
  initialized_ : Bool
  cub_allocator_ : Bool
  dev_info_ : List DevInfo
  update_thresholds_ : List Nat
  pinned_host_buffers_ : List (List Nat)
  pinned_device_buffers_ : List (List Nat)
  pinned_buffer_sizes_ : List (List Nat)
  deriving DecidableEq

/-- Grow-only resize, modelling `vector::resize(n)` at the call sites of
the source, all of which guard with `if (n > v.size())` first. -/
def listResize (l : List α) (n : Nat) (pad : α) : List α :=
  if n ≤ l.length then l else l ++ List.replicate (n - l.length) pad

/-- Read of a two-level table `v[i][j]` with default for the model. -/
def get2 (l : List (List α)) (i j : Nat) (d : α) : α :=
  (l.getD i []).getD j d

/-- Write to a two-level table `v[i][j] = a`. -/
def set2 (l : List (List α)) (i j : Nat) (a : α) : List (List α) :=
  l.set i ((l.getD i []).set j a)

/-- Embedding of `GPUMemory::Manager::update_dev_info(device)`
(lines 305-320).  The driver oracle results are `df`/`dt` for
`cudaMemGetInfo(&free_, &total_)` and `pt` for
`props.totalGlobalMem`.  The entry is resized in, then
`total_ := min(props.totalGlobalMem, total_)` and
`free_ := min(total_, free_)`; `flush_count_` is untouched. -/
def update_dev_info (st : ManagerState) (device df dt pt : Nat) : ManagerState :=
  let info := listResize st.dev_info_ (device + 1) default
  let old := info.getD device default
  let total := min pt dt
  let free := min total df
  { st with dev_info_ := info.set device ⟨free, total, old.flush_count_⟩ }

/-- Truncating decay of `update_thresholds_[device] *= 0.9F`
(line 243); the source computes in binary32 and stores back to
`size_t`, modelled here as the exact rational `9*t/10` truncated. -/
def decayThreshold (t : Nat) : Nat := 9 * t / 10

/-- Embedding of the DevInfo update performed by
`GPUMemory::Manager::try_allocate` on a successful `DeviceAllocate`
with a valid device and no trailing driver error (lines 239-250):
if bytes were freshly carved (`size_allocated > 0`), either refresh
(decaying the threshold when `free_ < update_thresholds_[device]`),
refresh without decay when `free_ < size_allocated`, or debit the
estimate. -/
def try_allocate_update (st : ManagerState) (device s df dt pt : Nat) : ManagerState :=
  if 0 < s then
    let d := st.dev_info_.getD device default
    let thr := st.update_thresholds_.getD device 0
    if d.free_ < thr then
      let st1 := update_dev_info st device df dt pt
      { st1 with update_thresholds_ := st1.update_thresholds_.set device (decayThreshold thr) }
    else if d.free_ < s then
      update_dev_info st device df dt pt
    else
      { st with dev_info_ := st.dev_info_.set device ⟨d.free_ - s, d.total_, d.flush_count_⟩ }
  else st

/-- Reader-mode lock taken by `try_allocate` around the allocation and
DevInfo update (`shared_lock` at line 234). -/
def try_allocate_lock : LockMode := LockMode.shared

/-- Embedding of `GPUMemory::Manager::deallocate(ptr, device)`
(lines 286-303).  `ptrIsNull` models `!ptr`; `cudartUnloading` models
`cudaGetDevice` returning `cudaErrorCudartUnloading`; `s` is the
`size_deallocated` reported by `DeviceFree`.  The second component of
the result records whether the underlying cache (`DeviceFree`) was
called. -/
def deallocate (st : ManagerState) (ptrIsNull : Bool) (device : Nat)
    (cudartUnloading : Bool) (s : Nat) : ManagerState × Bool :=
  if ptrIsNull || !st.cub_allocator_ then (st, false)
  else if cudartUnloading then (st, false)
  else if 0 < s then
    let d := st.dev_info_.getD device default
    ({ st with dev_info_ := st.dev_info_.set device ⟨d.free_ + s, d.total_, d.flush_count_⟩ }, true)
  else (st, true)

/-- Reader-mode lock taken by `deallocate` around `DeviceFree`
(`shared_lock` at line 297). -/
def deallocate_lock : LockMode := LockMode.shared

/-- Embedding of `GPUMemory::Manager::GetInfo(free, total, with_update)`
(lines 334-347).  `cur_device` is the device `cudaGetDevice` reports;
`df`/`dt`/`pt` are the driver oracle for a forced refresh;
`cachedFree` models `cub_allocator_->cached_bytes[cur_device].free`.
Returns `none` when `CHECK(cub_allocator_)` would abort, otherwise
`some (free, total)`. -/
def GetInfo (st : ManagerState) (cur_device : Nat) (with_update : Bool)
    (df dt pt cachedFree : Nat) : Option (Nat × Nat) :=
  if !st.cub_allocator_ then none
  else
    let st1 := if with_update then update_dev_info st cur_device df dt pt else st
    let d := st1.dev_info_.getD cur_device default
    let total := d.total_
    let free := d.free_ + cachedFree
    some (if total < free then total else free, total)

/-- Embedding of `GPUMemory::Manager::reset()` (lines 194-200): no-op
when not initialized, otherwise release the cub handle and clear
`initialized_`; nothing else is touched. -/
def reset (st : ManagerState) : ManagerState :=
  if !st.initialized_ then st
  else { st with cub_allocator_ := false, initialized_ := false }

/-- The set of host pointers `GPUMemory::Manager::~Manager()`
(lines 202-208) passes to `cudaFreeHost`: every entry of every group of
`pinned_host_buffers_`. -/
def destructor_freed_host_buffers (st : ManagerState) : List Nat :=
  st.pinned_host_buffers_.flatten

/-- Result of `GPUMemory::Manager::init`: the state afterwards, whether
`CHECK(cub_allocator_)` aborted (fatal), and how many construction
attempts of the cub allocator were made. -/
structure InitResult where
  state : ManagerState
  fatal : Bool
  ctor_attempts : Nat
  deriving DecidableEq

/-- Embedding of `GPUMemory::Manager::init(gpus, debug)`
(lines 170-192).  `ctorOutcomes` lists, in order, the results further
construction attempts of `cub::CachingDeviceAllocator` would give
(`true` = constructed, `false` = threw); the source performs exactly
one attempt (lines 176-181), swallowing an exception with `catch (...)`
so that a throw leaves the previous handle in place, then
`CHECK(cub_allocator_)` (line 182) aborts if no handle exists.  On
success each listed gpu gets `update_dev_info` and its threshold set to
its total (lines 183-186). -/
def init (st : ManagerState) (gpus : List Nat) (debug debug_env : Bool)
    (ctorOutcomes : List Bool) (df dt pt : Nat) : InitResult :=
  if st.initialized_ then ⟨st, false, 0⟩
  else
    let st1 := { st with debug_ := debug || debug_env }
    let ok := ctorOutcomes.headD false
    let st2 := if ok then { st1 with cub_allocator_ := true } else st1
    if !st2.cub_allocator_ then ⟨st2, true, 1⟩
    else
      let st3 := gpus.foldl (fun s g =>
        let s1 := update_dev_info s g df dt pt
        { s1 with update_thresholds_ :=
            s1.update_thresholds_.set g ((s1.dev_info_.getD g default).total_) }) st2
      ⟨{ st3 with initialized_ := true }, false, 1⟩

/-- Embedding of `GPUMemory::Manager::resize_buffers(device, group)`
(lines 104-121): grows the outer (per-device) and inner (per-group)
pinned tables as needed and reports whether anything was grown. -/
def resize_buffers (st : ManagerState) (device group : Nat) : ManagerState × Bool :=
  let r1 := st.pinned_buffer_sizes_.length < device + 1
  let st1 :=
    if r1 then
      { st with
        pinned_host_buffers_ := listResize st.pinned_host_buffers_ (device + 1) [],
        pinned_device_buffers_ := listResize st.pinned_device_buffers_ (device + 1) [],
        pinned_buffer_sizes_ := listResize st.pinned_buffer_sizes_ (device + 1) [] }
    else st
  let r2 := (st1.pinned_buffer_sizes_.getD device []).length < group + 1
  let st2 :=
    if r2 then
      { st1 with
        pinned_host_buffers_ :=
          st1.pinned_host_buffers_.set device
            (listResize (st1.pinned_host_buffers_.getD device []) (group + 1) 0),
        pinned_device_buffers_ :=
          st1.pinned_device_buffers_.set device
            (listResize (st1.pinned_device_buffers_.getD device []) (group + 1) 0),
        pinned_buffer_sizes_ :=
          st1.pinned_buffer_sizes_.set device
            (listResize (st1.pinned_buffer_sizes_.getD device []) (group + 1) 0) }
    else st1
  (st2, r1 || r2)

/-- Embedding of `GPUMemory::Manager::pinned_buffer(size, device, group)`
(lines 152-168).  `hptr`/`dptr` are the oracle results of
`cudaHostAlloc`/`cudaHostGetDevicePointer` on the resize path.  The
third component records the mode in which the process-wide
`read_write_mutex()` is acquired on the taken path: the resize path
takes a `shared_lock` (line 158), the fast path takes no lock. -/
def pinned_buffer (st : ManagerState) (size device group : Nat) (hptr dptr : Nat) :
    ManagerState × Nat × LockMode :=
  let p := resize_buffers st device group
  let st1 := p.1
  let resized := p.2
  let sz := max size INITIAL_PINNED_BYTES
  let current_size := get2 st1.pinned_buffer_sizes_ device group 0
  if current_size < sz ∨ resized = true then
    let st2 := { st1 with
      pinned_host_buffers_ := set2 st1.pinned_host_buffers_ device group hptr,
      pinned_device_buffers_ := set2 st1.pinned_device_buffers_ device group dptr,
      pinned_buffer_sizes_ := set2 st1.pinned_buffer_sizes_ device group sz }
    (st2, dptr, LockMode.shared)
  else (st1, get2 st1.pinned_device_buffers_ device group 0, LockMode.unlocked)

/-- Thread-local state used by `GPUMemory::thread_pinned_buffer`
(lines 130-134): the two `unordered_map<int, unique_ptr<...>>` tables
(modelled as association lists, newest first) and the `sizes` vector. -/
structure ThreadPinnedState where
  host_buffers : List (Nat × Nat)
  device_buffers : List (Nat × Nat)
  sizes : List Nat
  deriving DecidableEq

/-- Model of `std::unordered_map::emplace(make_pair(k, v))`: inserts
only when `k` is not already present; an existing mapping is kept
unchanged (no overwrite). -/
def emplace (m : List (Nat × Nat)) (k v : Nat) : List (Nat × Nat) :=
  if (m.lookup k).isSome then m else (k, v) :: m

/-- Embedding of `GPUMemory::thread_pinned_buffer(size, group)`
(lines 123-150).  `hptr`/`dptr` are the oracle results of
`cudaHostAlloc`/`cudaHostGetDevicePointer` when the grow branch runs.
The returned `Nat` is `device_buffers.find(group)->second.get()`; the
`LockMode` records that the grow path acquires no lock on
`read_write_mutex()` (the host-buffer cleanup lambda, lines 125-128,
separately takes a `shared_lock`). -/
def thread_pinned_buffer (ts : ThreadPinnedState) (size group : Nat) (hptr dptr : Nat) :
    ThreadPinnedState × Nat × LockMode :=
  let sizes := listResize ts.sizes (group + 1) 0
  if sizes.getD group 0 < size then
    let host := emplace ts.host_buffers group hptr
    let dev := emplace ts.device_buffers group dptr
    (⟨host, dev, sizes.set group size⟩, (dev.lookup group).getD 0, LockMode.unlocked)
  else
    ({ ts with sizes := sizes }, (ts.device_buffers.lookup group).getD 0, LockMode.unlocked)

/-- Reader-mode lock taken by the thread-local host-buffer cleanup
lambda (`shared_lock` at line 126) when a thread-local entry is
destroyed. -/
def thread_host_buffer_cleaner_lock : LockMode := LockMode.shared

/-- State of a `GPUMemory::Workspace`: `ptr_` (null modelled as
`none`), `size_`, `device_`. -/
structure Workspace where
  ptr_ : Option Nat
  size_ : Nat
  device_ : Int
  deriving DecidableEq

/-- Modelled from the spec: `Workspace::release()` lives in the header
`gpu_memory.hpp`, which is not part of the sources here.  Per the spec
it frees held memory via the Allocator Manager and resets `ptr`/`size`
to empty, idempotently; its workspace-local effect is `ptr_ := null`,
`size_ := 0`. -/
def Workspace.release (w : Workspace) : Workspace :=
  { w with ptr_ := none, size_ := 0 }

/-- Embedding of `GPUMemory::Workspace::try_reserve(size, device)`
(lines 78-92).  `allocResult` is the oracle outcome of
`mgr_.try_allocate` (`some p` = success returning non-null `p`, per
`CHECK_NOTNULL`).  Returns the status, the workspace afterwards, and
whether the manager's allocate path was invoked at all. -/
def Workspace.try_reserve (w : Workspace) (size : Nat) (device : Int)
    (allocResult : Option Nat) : Bool × Workspace × Bool :=
  if w.size_ < size ∨ w.ptr_ = none then
    let w1 := w.release
    let w2 := if device ≠ INVALID_DEVICE then { w1 with device_ := device } else w1
    match allocResult with
    | some p => (true, { w2 with ptr_ := some p, size_ := size }, true)
    | none => (false, w2, true)
  else (true, w, false)

/-- One successful allocator-facing operation on a fixed device, as
seen by the DevInfo bookkeeping: `alloc s` is a successful
`try_allocate` whose `DeviceAllocate` carved `s` fresh bytes
(`size_allocated`), `dealloc s` a `deallocate` whose `DeviceFree`
returned `s` bytes (`size_deallocated`). -/
inductive MemOp where
  | alloc (s : Nat)
  | dealloc (s : Nat)
  deriving DecidableEq

/-- Effect of one `MemOp` on the manager state, on device `device`
with refresh oracle `df`/`dt`/`pt`: the respective update paths of
`try_allocate` and `deallocate` (non-null pointer, no driver
shutdown). -/
def opStep (device df dt pt : Nat) (st : ManagerState) (op : MemOp) : ManagerState :=
  match op with
  | MemOp.alloc s => try_allocate_update st device s df dt pt
  | MemOp.dealloc s => (deallocate st false device false s).1

/-- Folds a sequence of operations over the manager state. -/
def runOps (device df dt pt : Nat) (st : ManagerState) (ops : List MemOp) : ManagerState :=
  ops.foldl (opStep device df dt pt) st

/-- Decides that no operation of the trace forces a DevInfo refresh:
every allocation that carves fresh bytes finds the running free
estimate at or above both the refresh threshold and the carved amount
(deallocations never refresh). -/
def noForcedRefresh (device df dt pt : Nat) : ManagerState → List MemOp → Bool
  | _, [] => true
  | st, op :: rest =>
    (match op with
     | MemOp.alloc s =>
       decide (s = 0) ||
         (decide (st.update_thresholds_.getD device 0 ≤ (st.dev_info_.getD device default).free_)
           && decide (s ≤ (st.dev_info_.getD device default).free_))
     | MemOp.dealloc _ => true)
    && noForcedRefresh device df dt pt (opStep device df dt pt st op) rest

/-- Total bytes freshly carved by the allocations of a trace. -/
def sumAlloc : List MemOp → Nat
  | [] => 0
  | MemOp.alloc s :: r => s + sumAlloc r
  | MemOp.dealloc _ :: r => sumAlloc r

/-- Total bytes returned by the deallocations of a trace. -/
def sumFreed : List MemOp → Nat
  | [] => 0
  | MemOp.alloc _ :: r => sumFreed r
  | MemOp.dealloc s :: r => s + sumFreed r

/-- Example manager: one device with `free = total = 100`, threshold 10,
cub allocator present. -/
def mgr100 : ManagerState := ⟨false, true, true, [⟨100, 100, 0⟩], [10], [], [], []⟩

/-- Example manager under pressure: `free = 50`, `total = 200`,
threshold 40, so the estimate sits at or above the threshold. -/
def mgrPressure : ManagerState := ⟨false, true, true, [⟨50, 200, 0⟩], [40], [], [], []⟩

/-- Example manager with a low estimate: `free = 5` sits below the
threshold 50. -/
def mgrLow : ManagerState := ⟨false, true, true, [⟨5, 100, 0⟩], [50], [], [], []⟩

/-- Example manager with `free = 30`, `total = 50`. -/
def mgr3050 : ManagerState := ⟨false, true, true, [⟨30, 50, 0⟩], [50], [], [], []⟩

/-- Example manager with empty tables but a live cub allocator. -/
def mgrEmpty : ManagerState := ⟨false, true, true, [], [], [], [], []⟩

/-- Example manager before any initialization: no cub handle. -/
def mgrUninit : ManagerState := ⟨false, false, false, [], [], [], [], []⟩

theorem getD_set_self (l : List α) (i : Nat) (a d : α) (h : i < l.length) :
    (l.set i a).getD i d = a := by
  induction l generalizing i with
  | nil => simp at h
  | cons x xs ih =>
    cases i with
    | zero => rfl
    | succ n =>
      simp only [List.set, List.getD_cons_succ]
      exact ih n (by simpa using h)

theorem le_length_listResize (l : List α) (n : Nat) (p : α) :
    n ≤ (listResize l n p).length := by
  unfold listResize
  split
  · assumption
  · simp only [List.length_append, List.length_replicate]
    omega

/-- The entry `update_dev_info` writes for `device`: free and total from
the driver query, both clamped, flush count carried over. -/
theorem update_dev_info_getD (st : ManagerState) (device df dt pt : Nat) :
    (update_dev_info st device df dt pt).dev_info_.getD device default =
      ⟨min (min pt dt) df, min pt dt,
        ((listResize st.dev_info_ (device + 1) default).getD device default).flush_count_⟩ := by
  unfold update_dev_info
  exact getD_set_self _ _ _ _
    (Nat.lt_of_lt_of_le (Nat.lt_succ_self device) (le_length_listResize _ _ _))

theorem update_dev_info_thresholds (st : ManagerState) (device df dt pt : Nat) :
    (update_dev_info st device df dt pt).update_thresholds_ = st.update_thresholds_ := rfl

/-- Fast-path characterization of the allocation-side DevInfo update:
when fresh bytes are carved but the estimate sits at or above both the
threshold and the carved amount, the estimate is debited in place. -/
theorem try_allocate_update_debit (st : ManagerState) (device s df dt pt : Nat)
    (hs : 0 < s)
    (hthr : st.update_thresholds_.getD device 0 ≤ (st.dev_info_.getD device default).free_)
    (hcover : s ≤ (st.dev_info_.getD device default).free_) :
    try_allocate_update st device s df dt pt =
      { st with dev_info_ :=
          st.dev_info_.set device (⟨(st.dev_info_.getD device default).free_ - s,
            (st.dev_info_.getD device default).total_,
            (st.dev_info_.getD device default).flush_count_⟩ : DevInfo) } := by
  simp only [try_allocate_update]
  rw [if_pos hs, if_neg (Nat.not_lt.mpr hthr), if_neg (Nat.not_lt.mpr hcover)]

theorem try_allocate_update_zero (st : ManagerState) (device df dt pt : Nat) :
    try_allocate_update st device 0 df dt pt = st := by
  simp [try_allocate_update]

/-- Credit-path characterization of `deallocate`: live cub handle,
non-null pointer, no driver shutdown, positive freed size. -/
theorem deallocate_credit (st : ManagerState) (device s : Nat)
    (hcub : st.cub_allocator_ = true) (hs : 0 < s) :
    (deallocate st false device false s).1 =
      { st with dev_info_ :=
          st.dev_info_.set device (⟨(st.dev_info_.getD device default).free_ + s,
            (st.dev_info_.getD device default).total_,
            (st.dev_info_.getD device default).flush_count_⟩ : DevInfo) } := by
  simp [deallocate, hcub, hs]

theorem deallocate_zero (st : ManagerState) (device : Nat)
    (hcub : st.cub_allocator_ = true) :
    (deallocate st false device false 0).1 = st := by
  simp [deallocate, hcub]

/-- Claim C1 (amended): after every successful `update_dev_info(d)` the
device's free estimate is at most its total, and the DevInfo update on
`try_allocate`'s success path preserves `free <= total`; the claim's
further assertion that every `deallocate` credit also preserves the
invariant fails, because `deallocate` adds the freed bytes without
clamping (see the counterexample). -/
theorem free_le_total_invariant (st : ManagerState) (device df dt pt s : Nat)
    (hdev : device < st.dev_info_.length)
    (hinv : (st.dev_info_.getD device default).free_
      ≤ (st.dev_info_.getD device default).total_) :
    ((update_dev_info st device df dt pt).dev_info_.getD device default).free_
        ≤ ((update_dev_info st device df dt pt).dev_info_.getD device default).total_
    ∧ ((try_allocate_update st device s df dt pt).dev_info_.getD device default).free_
        ≤ ((try_allocate_update st device s df dt pt).dev_info_.getD device default).total_ := by
  refine ⟨?_, ?_⟩
  · rw [update_dev_info_getD]
    exact Nat.min_le_left _ _
  · simp only [try_allocate_update]
    split
    · split
      · dsimp only
        rw [update_dev_info_getD]
        exact Nat.min_le_left _ _
      · split
        · rw [update_dev_info_getD]
          exact Nat.min_le_left _ _
        · dsimp only
          rw [getD_set_self _ _ _ _ hdev]
          exact le_trans (Nat.sub_le _ _) hinv
    · exact hinv

/-- Witness for C1: the invariant theorem applied to a concrete
one-device manager. -/
theorem free_le_total_invariant_witness :
    ((update_dev_info mgr100 0 80 120 90).dev_info_.getD 0 default).free_
        ≤ ((update_dev_info mgr100 0 80 120 90).dev_info_.getD 0 default).total_
    ∧ ((try_allocate_update mgr100 0 30 80 120 90).dev_info_.getD 0 default).free_
        ≤ ((try_allocate_update mgr100 0 30 80 120 90).dev_info_.getD 0 default).total_ :=
  free_le_total_invariant mgr100 0 80 120 90 30 (by decide) (by decide)

/-- Counterexample for C1: starting from `free = total = 100`, a
`deallocate` crediting 7 freed bytes leaves `free = 107 > 100 = total`,
so the invariant is not preserved by every deallocate. -/
theorem deallocate_breaks_free_le_total :
    (mgr100.dev_info_.getD 0 default).free_ ≤ (mgr100.dev_info_.getD 0 default).total_
    ∧ ((deallocate mgr100 false 0 false 7).1.dev_info_.getD 0 default).free_ = 107
    ∧ ((deallocate mgr100 false 0 false 7).1.dev_info_.getD 0 default).total_ = 100
    ∧ ¬ ((deallocate mgr100 false 0 false 7).1.dev_info_.getD 0 default).free_
          ≤ ((deallocate mgr100 false 0 false 7).1.dev_info_.getD 0 default).total_ := by
  decide

/-- Claim C2 (amended): over any `try_allocate`/`deallocate` sequence
on one device in which no forced DevInfo refresh occurs, the final free
estimate satisfies exactly `final + sum(allocated) = initial +
sum(freed)`; no clamping is applied on this path (the no-refresh
assumption already keeps the value nonnegative, but deallocations can
push it above `total` - see the counterexample). -/
theorem trace_free_conservation (device df dt pt : Nat) (ops : List MemOp)
    (st : ManagerState)
    (hcub : st.cub_allocator_ = true)
    (hdev : device < st.dev_info_.length)
    (hnr : noForcedRefresh device df dt pt st ops = true) :
    ((runOps device df dt pt st ops).dev_info_.getD device default).free_ + sumAlloc ops
      = (st.dev_info_.getD device default).free_ + sumFreed ops := by
  induction ops generalizing st with
  | nil => simp [runOps, sumAlloc, sumFreed]
  | cons op rest ih =>
    have hrun : runOps device df dt pt st (op :: rest)
        = runOps device df dt pt (opStep device df dt pt st op) rest := rfl
    cases op with
    | alloc s =>
      simp only [noForcedRefresh, Bool.and_eq_true, Bool.or_eq_true,
        decide_eq_true_eq] at hnr
      obtain ⟨h1, h2⟩ := hnr
      by_cases hs : s = 0
      · subst hs
        have hstep : opStep device df dt pt st (MemOp.alloc 0) = st :=
          try_allocate_update_zero st device df dt pt
        rw [hstep] at h2
        have := ih st hcub hdev h2
        rw [hrun, hstep]
        simpa [sumAlloc, sumFreed] using this
      · have hpos : 0 < s := Nat.pos_of_ne_zero hs
        have hpair : st.update_thresholds_.getD device 0
              ≤ (st.dev_info_.getD device default).free_
            ∧ s ≤ (st.dev_info_.getD device default).free_ := by
          rcases h1 with h1 | h1
          · exact absurd h1 hs
          · exact h1
        have hstep := try_allocate_update_debit st device s df dt pt hpos hpair.1 hpair.2
        have hcub2 : (opStep device df dt pt st (MemOp.alloc s)).cub_allocator_ = true := by
          show (try_allocate_update st device s df dt pt).cub_allocator_ = true
          rw [hstep]
          exact hcub
        have hdev2 : device < (opStep device df dt pt st (MemOp.alloc s)).dev_info_.length := by
          show device < (try_allocate_update st device s df dt pt).dev_info_.length
          rw [hstep]
          simpa [List.length_set] using hdev
        have hfree2 : ((opStep device df dt pt st
              (MemOp.alloc s)).dev_info_.getD device default).free_
            = (st.dev_info_.getD device default).free_ - s := by
          show ((try_allocate_update st device s df dt pt).dev_info_.getD
            device default).free_ = _
          rw [hstep]
          dsimp only
          rw [getD_set_self _ _ _ _ hdev]
        have hrec := ih _ hcub2 hdev2 h2
        obtain ⟨hthr2, hcov2⟩ := hpair
        rw [hrun]
        simp only [sumAlloc, sumFreed]
        omega
    | dealloc s =>
      simp only [noForcedRefresh, Bool.and_eq_true] at hnr
      obtain ⟨-, h2⟩ := hnr
      by_cases hs : s = 0
      · subst hs
        have hstep : opStep device df dt pt st (MemOp.dealloc 0) = st :=
          deallocate_zero st device hcub
        rw [hstep] at h2
        have := ih st hcub hdev h2
        rw [hrun, hstep]
        simpa [sumAlloc, sumFreed] using this
      · have hpos : 0 < s := Nat.pos_of_ne_zero hs
        have hstep := deallocate_credit st device s hcub hpos
        have hcub2 : (opStep device df dt pt st (MemOp.dealloc s)).cub_allocator_ = true := by
          show (deallocate st false device false s).1.cub_allocator_ = true
          rw [hstep]
          exact hcub
        have hdev2 : device < (opStep device df dt pt st (MemOp.dealloc s)).dev_info_.length := by
          show device < (deallocate st false device false s).1.dev_info_.length
          rw [hstep]
          simpa [List.length_set] using hdev
        have hfree2 : ((opStep device df dt pt st
              (MemOp.dealloc s)).dev_info_.getD device default).free_
            = (st.dev_info_.getD device default).free_ + s := by
          show ((deallocate st false device false s).1.dev_info_.getD
            device default).free_ = _
          rw [hstep]
          dsimp only
          rw [getD_set_self _ _ _ _ hdev]
        have hrec := ih _ hcub2 hdev2 h2
        rw [hrun]
        simp only [sumAlloc, sumFreed]
        omega

/-- Witness for C2: an allocation of 30 then a deallocation of 20 on a
device starting at `free = 100` satisfies the conservation equation. -/
theorem trace_free_conservation_witness :
    ((runOps 0 5 6 7 mgr100 [MemOp.alloc 30, MemOp.dealloc 20]).dev_info_.getD 0
        default).free_ + sumAlloc [MemOp.alloc 30, MemOp.dealloc 20]
      = (mgr100.dev_info_.getD 0 default).free_
        + sumFreed [MemOp.alloc 30, MemOp.dealloc 20] :=
  trace_free_conservation 0 5 6 7 [MemOp.alloc 30, MemOp.dealloc 20] mgr100
    rfl (by decide) (by decide)

/-- Counterexample for C2: a refresh-free trace consisting of one
deallocation of 10 bytes from `free = total = 100` ends with
`free = 110`, which differs from the claimed value clamped to
`[0, total]` (that would be 100). -/
theorem trace_free_exceeds_clamp :
    noForcedRefresh 0 5 6 7 mgr100 [MemOp.dealloc 10] = true
    ∧ ((runOps 0 5 6 7 mgr100 [MemOp.dealloc 10]).dev_info_.getD 0 default).free_ = 110
    ∧ ((runOps 0 5 6 7 mgr100 [MemOp.dealloc 10]).dev_info_.getD 0 default).free_
        ≠ min ((mgr100.dev_info_.getD 0 default).free_ + sumFreed [MemOp.dealloc 10])
            ((mgr100.dev_info_.getD 0 default).total_) := by
  decide

/-- Claim C3 (amended): on a successful `try_allocate` that freshly
carved `s > 0` bytes, if the free estimate is below the refresh
threshold then DevInfo is refreshed and the threshold decays by 10%;
if the estimate is at or above the threshold but below the carved
amount, DevInfo is refreshed and the threshold is left unchanged (the
claim wrongly asserts decay here too - see the counterexample);
otherwise the estimate is only debited and the threshold is
unchanged. -/
theorem try_allocate_update_cases (st : ManagerState) (device s df dt pt : Nat)
    (hs : 0 < s) :
    ((st.dev_info_.getD device default).free_ < st.update_thresholds_.getD device 0 →
      try_allocate_update st device s df dt pt =
        { update_dev_info st device df dt pt with
            update_thresholds_ := st.update_thresholds_.set device
              (decayThreshold (st.update_thresholds_.getD device 0)) })
    ∧ (st.update_thresholds_.getD device 0 ≤ (st.dev_info_.getD device default).free_ →
        (st.dev_info_.getD device default).free_ < s →
        try_allocate_update st device s df dt pt = update_dev_info st device df dt pt)
    ∧ (st.update_thresholds_.getD device 0 ≤ (st.dev_info_.getD device default).free_ →
        s ≤ (st.dev_info_.getD device default).free_ →
        try_allocate_update st device s df dt pt =
          { st with dev_info_ :=
              st.dev_info_.set device (⟨(st.dev_info_.getD device default).free_ - s,
                (st.dev_info_.getD device default).total_,
                (st.dev_info_.getD device default).flush_count_⟩ : DevInfo) }) := by
  refine ⟨?_, ?_, ?_⟩
  · intro h
    simp only [try_allocate_update]
    rw [if_pos hs, if_pos h]
    rfl
  · intro h1 h2
    simp only [try_allocate_update]
    rw [if_pos hs, if_neg (Nat.not_lt.mpr h1), if_pos h2]
  · intro h1 h2
    exact try_allocate_update_debit st device s df dt pt hs h1 h2

/-- Witness for C3: an allocation under a low free estimate (5 below
threshold 50) refreshes and decays the threshold. -/
theorem try_allocate_update_cases_witness :
    try_allocate_update mgrLow 0 8 60 70 80 =
      { update_dev_info mgrLow 0 60 70 80 with
          update_thresholds_ := mgrLow.update_thresholds_.set 0
            (decayThreshold (mgrLow.update_thresholds_.getD 0 0)) } :=
  (try_allocate_update_cases mgrLow 0 8 60 70 80 (by decide)).1 (by decide)

/-- Counterexample for C3: with `free = 50`, threshold 40 and a carved
amount of 60, the claim's antecedent holds (the carved amount exceeds
the estimate) and DevInfo is refreshed, but the threshold stays 40
instead of decaying. -/
theorem refresh_without_decay :
    ((mgrPressure.dev_info_.getD 0 default).free_
        < mgrPressure.update_thresholds_.getD 0 0
      ∨ (mgrPressure.dev_info_.getD 0 default).free_ < 60)
    ∧ (try_allocate_update mgrPressure 0 60 30 200 200).dev_info_ = [⟨30, 200, 0⟩]
    ∧ (try_allocate_update mgrPressure 0 60 30 200 200).update_thresholds_.getD 0 0 = 40
    ∧ decayThreshold (mgrPressure.update_thresholds_.getD 0 0) ≠ 40 := by
  decide

/-- Claim C4 (amended): pinned-buffer resizes acquire the process-wide
reader/writer mutex in shared (reader) mode, not exclusive mode: the
process-wide pool's resize path takes a `shared_lock`, the thread-local
grow path takes no lock at all, and the thread-local cleanup callback
takes a `shared_lock`; exclusive (writer) acquisition is left to
external parties (such as NCCL), so a pinned-buffer resize does not
exclude concurrent allocate/free calls, which also acquire shared
mode. -/
theorem pinned_lock_modes (st : ManagerState) (size device group hptr dptr : Nat)
    (ts : ThreadPinnedState) (size2 group2 hp2 dp2 : Nat) :
    (pinned_buffer st size device group hptr dptr).2.2 ≠ LockMode.exclusive
    ∧ (get2 (resize_buffers st device group).1.pinned_buffer_sizes_ device group 0
          < max size INITIAL_PINNED_BYTES
        ∨ (resize_buffers st device group).2 = true →
        (pinned_buffer st size device group hptr dptr).2.2 = LockMode.shared)
    ∧ (thread_pinned_buffer ts size2 group2 hp2 dp2).2.2 = LockMode.unlocked
    ∧ thread_host_buffer_cleaner_lock = LockMode.shared
    ∧ try_allocate_lock = LockMode.shared
    ∧ deallocate_lock = LockMode.shared := by
  refine ⟨?_, ?_, ?_, rfl, rfl, rfl⟩
  · simp only [pinned_buffer]
    split
    · dsimp only
      decide
    · dsimp only
      decide
  · intro h
    simp only [pinned_buffer]
    rw [if_pos h]
  · simp only [thread_pinned_buffer]
    split
    · rfl
    · rfl

/-- Witness for C4: a request against empty tables takes the resize
path and acquires the coordinator in shared mode. -/
theorem pinned_lock_modes_witness :
    (pinned_buffer mgrEmpty 1024 0 0 5 6).2.2 = LockMode.shared :=
  (pinned_lock_modes mgrEmpty 1024 0 0 5 6 ⟨[], [], []⟩ 64 0 1 2).2.1 (by decide)

/-- Counterexample for C4: a process-wide pinned-buffer resize runs
under a shared (reader) acquisition and a thread-local grow under no
acquisition, not the exclusive writer mode the claim asserts. -/
theorem pinned_resize_lock_not_exclusive :
    (pinned_buffer mgrEmpty 1024 0 0 5 6).2.2 = LockMode.shared
    ∧ (pinned_buffer mgrEmpty 1024 0 0 5 6).2.2 ≠ LockMode.exclusive
    ∧ (thread_pinned_buffer ⟨[], [], []⟩ 64 0 1 2).2.2 = LockMode.unlocked
    ∧ (thread_pinned_buffer ⟨[], [], []⟩ 64 0 1 2).2.2 ≠ LockMode.exclusive := by
  decide

/-- Claim C5 (amended): during `init`, a failure to construct the
underlying caching allocator is swallowed (keeping any previously
installed handle), and `init` then checks the handle once: exactly one
construction attempt is made, and `init` aborts exactly when that
single attempt failed and no earlier handle exists - the construction
is not retried. -/
theorem init_single_attempt (st : ManagerState) (gpus : List Nat) (dbg env : Bool)
    (outcomes : List Bool) (df dt pt : Nat)
    (h : st.initialized_ = false) :
    (init st gpus dbg env outcomes df dt pt).ctor_attempts = 1
    ∧ ((init st gpus dbg env outcomes df dt pt).fatal = true ↔
        outcomes.headD false = false ∧ st.cub_allocator_ = false) := by
  unfold init
  cases hok : outcomes.headD false <;>
    cases hcub : st.cub_allocator_ <;>
      simp [h, hok, hcub]

/-- Witness for C5: with a successful single construction attempt,
`init` does not abort. -/
theorem init_single_attempt_witness :
    (init mgrUninit [0] false false [true] 40 50 60).ctor_attempts = 1
    ∧ ((init mgrUninit [0] false false [true] 40 50 60).fatal = true ↔
        [true].headD false = false ∧ mgrUninit.cub_allocator_ = false) :=
  init_single_attempt mgrUninit [0] false false [true] 40 50 60 rfl

/-- Counterexample for C5: with no previous handle and a first
construction attempt that throws, `init` aborts after exactly one
attempt, even though the next attempt would have succeeded - there is
no retry of the construction. -/
theorem init_aborts_without_retry :
    (init mgrUninit [] false false [false, true] 0 0 0).fatal = true
    ∧ (init mgrUninit [] false false [false, true] 0 0 0).ctor_attempts = 1
    ∧ [false, true].getD 1 false = true := by
  decide

/-- Claim C6: for the calling thread's active device, `GetInfo` reports
the DevInfo total as total and the DevInfo free estimate plus the cub
cache's cached free bytes as free, clamped so the reported free never
exceeds the reported total. -/
theorem GetInfo_spec (st : ManagerState) (cur_device : Nat) (wu : Bool)
    (df dt pt cachedFree : Nat) (hcub : st.cub_allocator_ = true) :
    GetInfo st cur_device wu df dt pt cachedFree =
      some (min (((if wu then update_dev_info st cur_device df dt pt
              else st).dev_info_.getD cur_device default).free_ + cachedFree)
          (((if wu then update_dev_info st cur_device df dt pt
              else st).dev_info_.getD cur_device default).total_),
        ((if wu then update_dev_info st cur_device df dt pt
            else st).dev_info_.getD cur_device default).total_)
    ∧ ∀ f t, GetInfo st cur_device wu df dt pt cachedFree = some (f, t) → f ≤ t := by
  have h1 : GetInfo st cur_device wu df dt pt cachedFree =
      some (min (((if wu then update_dev_info st cur_device df dt pt
              else st).dev_info_.getD cur_device default).free_ + cachedFree)
          (((if wu then update_dev_info st cur_device df dt pt
              else st).dev_info_.getD cur_device default).total_),
        ((if wu then update_dev_info st cur_device df dt pt
            else st).dev_info_.getD cur_device default).total_) := by
    simp only [GetInfo, hcub, Bool.not_true, Bool.false_eq_true, if_false]
    congr 1
    congr 1
    by_cases hlt : ((if wu then update_dev_info st cur_device df dt pt
          else st).dev_info_.getD cur_device default).total_
        < ((if wu then update_dev_info st cur_device df dt pt
            else st).dev_info_.getD cur_device default).free_ + cachedFree
    · rw [if_pos hlt, Nat.min_eq_right (Nat.le_of_lt hlt)]
    · rw [if_neg hlt, Nat.min_eq_left (Nat.le_of_not_lt hlt)]
  refine ⟨h1, ?_⟩
  intro f t hft
  rw [h1] at hft
  simp only [Option.some.injEq, Prod.mk.injEq] at hft
  obtain ⟨hf, ht⟩ := hft
  rw [← hf, ← ht]
  exact Nat.min_le_right _ _

/-- Witness for C6: a device with estimate 30 of total 50 and 40 cached
free bytes reports free clamped to 50. -/
theorem GetInfo_spec_witness :
    GetInfo mgr3050 0 false 0 0 0 40 = some (50, 50) ∧ 50 ≤ 50 := by
  have h := GetInfo_spec mgr3050 0 false 0 0 0 40 rfl
  exact ⟨h.1.trans (by decide), h.2 50 50 (h.1.trans (by decide))⟩

/-- Claim C7: after a first successful `try_reserve(s1)`, a second
`try_reserve(s2)` with `s2 <= s1` returns true, invokes no new
underlying allocation, and leaves the workspace's pointer and held
size unchanged. -/
theorem try_reserve_shrink_noop (w0 : Workspace) (s1 s2 : Nat) (device : Int)
    (r1 r2 : Option Nat) (w1 : Workspace) (c1 : Bool)
    (h1 : Workspace.try_reserve w0 s1 device r1 = (true, w1, c1))
    (h2 : s2 ≤ s1) :
    Workspace.try_reserve w1 s2 device r2 = (true, w1, false) := by
  have hkey : s1 ≤ w1.size_ ∧ w1.ptr_ ≠ none := by
    unfold Workspace.try_reserve at h1
    by_cases hc : w0.size_ < s1 ∨ w0.ptr_ = none
    · rw [if_pos hc] at h1
      cases r1 with
      | some p =>
        simp only [Prod.mk.injEq] at h1
        obtain ⟨-, hw, -⟩ := h1
        subst hw
        exact ⟨Nat.le_refl s1, by simp⟩
      | none =>
        simp only [Prod.mk.injEq] at h1
        exact absurd h1.1 (by decide)
    · rw [if_neg hc] at h1
      simp only [Prod.mk.injEq] at h1
      obtain ⟨-, hw, -⟩ := h1
      subst hw
      push_neg at hc
      exact hc
  unfold Workspace.try_reserve
  rw [if_neg]
  intro hor
  rcases hor with hlt | hnone
  · exact absurd hlt (Nat.not_lt.mpr (Nat.le_trans h2 hkey.1))
  · exact hkey.2 hnone

/-- Witness for C7: a workspace holding 100 bytes at pointer 5 answers
a 50-byte request without reallocating. -/
theorem try_reserve_shrink_noop_witness :
    Workspace.try_reserve ⟨some 5, 100, 0⟩ 50 0 (some 9) = (true, ⟨some 5, 100, 0⟩, false) :=
  try_reserve_shrink_noop ⟨none, 0, -1⟩ 100 50 0 (some 5) (some 9) ⟨some 5, 100, 0⟩ true
    (by decide) (by decide)

/-- Claim C8 (code bug): growing a thread-local pinned buffer for a
group that already has one allocates a fresh host/device pair and
records the new size, but `unordered_map::emplace` does not replace the
existing entries, so the returned device pointer still aliases the old,
smaller host buffer while the recorded size claims the new one: after
`thread_pinned_buffer(64, 0)` returns device pointer 12 backed by host
buffer 11, `thread_pinned_buffer(128, 0)` returns 12 again - not the
mapping 22 of the newly allocated 128-byte host buffer 21 - while the
recorded size for group 0 becomes 128. -/
theorem thread_pinned_buffer_grow_returns_stale :
    (thread_pinned_buffer ⟨[], [], []⟩ 64 0 11 12).2.1 = 12
    ∧ (thread_pinned_buffer
        (thread_pinned_buffer ⟨[], [], []⟩ 64 0 11 12).1 128 0 21 22).2.1 = 12
    ∧ (thread_pinned_buffer
        (thread_pinned_buffer ⟨[], [], []⟩ 64 0 11 12).1 128 0 21 22).1.sizes.getD 0 0 = 128
    ∧ (thread_pinned_buffer
        (thread_pinned_buffer ⟨[], [], []⟩ 64 0 11 12).1 128 0 21 22).1.host_buffers = [(0, 11)]
    ∧ (thread_pinned_buffer
        (thread_pinned_buffer ⟨[], [], []⟩ 64 0 11 12).1 128 0 21 22).2.1 ≠ 22 := by
  decide

/-- Claim C9: `deallocate` is a benign no-op - the state is unchanged
and the underlying cache is not called - whenever the pointer is null,
the cub handle is absent, or the driver reports it is mid-shutdown. -/
theorem deallocate_noop_cases (st : ManagerState) (ptrIsNull : Bool) (device : Nat)
    (unloading : Bool) (s : Nat)
    (h : ptrIsNull = true ∨ st.cub_allocator_ = false ∨ unloading = true) :
    deallocate st ptrIsNull device unloading s = (st, false) := by
  unfold deallocate
  rcases h with h | h | h
  · subst h
    simp
  · simp [h]
  · subst h
    split
    · rfl
    · rfl

/-- Witness for C9: deallocation against an uninitialized manager
returns without touching anything. -/
theorem deallocate_noop_cases_witness :
    deallocate mgrUninit false 3 false 9 = (mgrUninit, false) :=
  deallocate_noop_cases mgrUninit false 3 false 9 (Or.inr (Or.inl rfl))

/-- Claim C10: `reset` only releases the cub handle and clears the
initialized flag; the DevInfo table, the refresh thresholds, the three
pinned-buffer tables, and the set of host buffers the destructor would
free at process exit are all left unchanged, so pinned buffers survive
a scope teardown. -/
theorem reset_frame (st : ManagerState) :
    (reset st).dev_info_ = st.dev_info_
    ∧ (reset st).update_thresholds_ = st.update_thresholds_
    ∧ (reset st).pinned_host_buffers_ = st.pinned_host_buffers_
    ∧ (reset st).pinned_device_buffers_ = st.pinned_device_buffers_
    ∧ (reset st).pinned_buffer_sizes_ = st.pinned_buffer_sizes_
    ∧ destructor_freed_host_buffers (reset st) = destructor_freed_host_buffers st
    ∧ (reset st).initialized_ = false
    ∧ (reset st).cub_allocator_ = (if st.initialized_ then false else st.cub_allocator_)
    ∧ (reset st).debug_ = st.debug_ := by
  unfold reset destructor_freed_host_buffers
  by_cases h : st.initialized_ = true <;> simp [h]

end GPUMemory
